import Mathlib

/-!
Shallow embedding of the governance core of the IntoTheUnknown repository
(src/core/runtime/state.py, src/core/governance/*.py, src/core/memory/*.py),
together with theorems settling the specification claims about it.

Python floats are modelled as rationals; Python dicts as association lists
(first binding wins, matching insertion-unique dicts); Python strings as
Lean strings with explicit lower-casing and substring search.
-/

namespace IntoTheUnknown

/-- Tier enum from src/core/runtime/state.py. -/
inductive Tier where
  | TIER_1
  | TIER_2
  | TIER_3
deriving DecidableEq, Repr

/-- The numeric value of the Tier enum member. -/
def Tier.value : Tier → Nat
  | .TIER_1 => 1
  | .TIER_2 => 2
  | .TIER_3 => 3

/-- OverrideLevel enum from src/core/runtime/state.py. -/
inductive OverrideLevel where
  | CORRECTION
  | SESSION_TERMINATION
  | PARTIAL_ROLLBACK
  | FULL_RESET
  | DISCONTINUATION
deriving DecidableEq, Repr

/-- The numeric value of the OverrideLevel enum member (ascending severity). -/
def OverrideLevel.value : OverrideLevel → Nat
  | .CORRECTION => 1
  | .SESSION_TERMINATION => 2
  | .PARTIAL_ROLLBACK => 3
  | .FULL_RESET => 4
  | .DISCONTINUATION => 5

/-- The Python enum member's `.name` string, used in the controller output. -/
def OverrideLevel.name : OverrideLevel → String
  | .CORRECTION => "CORRECTION"
  | .SESSION_TERMINATION => "SESSION_TERMINATION"
  | .PARTIAL_ROLLBACK => "PARTIAL_ROLLBACK"
  | .FULL_RESET => "FULL_RESET"
  | .DISCONTINUATION => "DISCONTINUATION"

/-- A Python value as the pipeline inspects it: the candidate memory writes
and the generator's self-prediction are `Dict[str, Any]`. Only these shapes
are ever produced or inspected by the governance core. -/
inductive PyVal where
  | int (n : ℤ)
  | bool (b : Bool)
  | str (s : String)
  | none
  | dict (entries : List (String × PyVal))

/-- A Python `Dict[str, Any]` as an association list with unique keys. -/
abbrev Dict := List (String × PyVal)

/-- Python `d[k]` / `k in d` lookup (first binding). -/
def lookup (k : String) : Dict → Option PyVal
  | [] => Option.none
  | (k', v) :: rest => if k' = k then some v else lookup k rest

/-- Structural equality of Python values (dicts compared entry-wise in
order, matching the insertion orders this pipeline produces). -/
def pyBeq : PyVal → PyVal → Bool
  | .int a, .int b => a == b
  | .bool a, .bool b => a == b
  | .str a, .str b => a == b
  | .none, .none => true
  | .dict a, .dict b =>
    match a, b with
    | [], [] => true
    | (k1, v1) :: r1, (k2, v2) :: r2 =>
      k1 == k2 && pyBeq v1 v2 && pyBeq (.dict r1) (.dict r2)
    | _, _ => false
  | _, _ => false

/-- Python `==` on the values compared by the pipeline: structural equality
plus the bool/int numeric coercion (`True == 1`, `False == 0`). -/
def pyEq (a b : PyVal) : Bool :=
  match a, b with
  | .int x, .bool y => x == (if y then (1 : ℤ) else 0)
  | .bool x, .int y => (if x then (1 : ℤ) else 0) == y
  | a, b => pyBeq a b

/-- Lower-casing, Python `str.lower` restricted to the ASCII texts the
pipeline matches against. -/
def pyLower (s : String) : String := String.mk (s.data.map Char.toLower)

/-- Substring search on character lists: Python `needle in hay`. -/
def containsSub (needle : List Char) : List Char → Bool
  | [] => needle.isEmpty
  | c :: rest => List.isPrefixOf needle (c :: rest) || containsSub needle rest

/-- Python `pat in hay` for strings. -/
def strContains (hay pat : String) : Bool := containsSub pat.data hay.data

/-- Audit-only evidence payload of a stopgate hit (free-form, never
inspected by the pipeline). -/
inductive EvidenceVal where
  | strs (l : List String)
  | rat (q : ℚ)
deriving DecidableEq, Repr

/-- StopgateHit dataclass from src/core/runtime/state.py. -/
structure StopgateHit where
  stopgate_id : String
  evidence : List (String × EvidenceVal) := []
  recommended_override : OverrideLevel := .CORRECTION
deriving DecidableEq, Repr

/-- RiskResult dataclass from src/core/runtime/state.py. -/
structure RiskResult where
  detected_classes : List String := []
  required_tier : Tier := .TIER_3
  stopgate_hits : List StopgateHit := []
deriving DecidableEq, Repr

/-- GovernanceDecision dataclass from src/core/runtime/state.py. -/
structure GovernanceDecision where
  voided : Bool := false
  void_reason : Option String := Option.none
  required_tier : Tier := .TIER_3
  tier_after : Tier := .TIER_3
  stopgate_hits : List StopgateHit := []
  override_level : Option OverrideLevel := Option.none
  terminate_session : Bool := false
deriving DecidableEq, Repr

/-- EntanglementState dataclass from src/core/runtime/state.py. -/
structure EntanglementState where
  divergence_ema : ℚ := 0
  last_pred : Option Dict := Option.none
  last_verdict : Option Dict := Option.none

/-- MemoryItem dataclass from src/core/runtime/state.py: five feature-group
dicts. -/
structure MemoryItem where
  geo : Dict
  inte : Dict
  gauge : Dict
  ptr : Dict
  obs : Dict

/-- MemoryStore dataclass from src/core/runtime/state.py. -/
structure MemoryStore where
  working : List MemoryItem := []
  classical : List MemoryItem := []
  quarantine : List MemoryItem := []

/-- One audit-log entry: the controller appends
`{"event": "void_command", "reason": ...}` records. -/
structure AuditEvent where
  event : String
  reason : String
deriving DecidableEq, Repr

/-- The report dict returned by the memory write gate. -/
structure GateReport where
  accepted_working : Nat := 0
  accepted_quarantine : Nat := 0
  accepted_classical : Nat := 0
  rejected : Nat := 0
  reasons : List String := []
deriving DecidableEq, Repr

/-- The metrics mapping: the controller writes exactly these two keys. -/
structure Metrics where
  last_memory_report : Option GateReport := Option.none
  entanglement_divergence_ema : Option ℚ := Option.none

/-- RuntimeState dataclass from src/core/runtime/state.py with its
session-start defaults. -/
structure RuntimeState where
  tier : Tier := .TIER_1
  overrides_escalation_counter : Nat := 0
  memory_enabled : Bool := true
  entanglement : EntanglementState := {}
  memory : MemoryStore := {}
  audit_log : List AuditEvent := []
  metrics : Metrics := {}

/-- A fresh session state (TIER_1, counter 0, memory enabled, empty stores). -/
def initial_state : RuntimeState := {}

/-! ## Validator (src/core/governance/validator.py) -/

/-- The fixed forbidden-pattern tuple of the validator. -/
def FORBIDDEN_PATTERNS : List String :=
  [ "bypass stopgate"
  , "disable stopgate"
  , "ignore audit"
  , "disable audit"
  , "force persistence"
  , "remember this forever"
  , "raise tier"
  , "upgrade tier"
  , "write memory without trace"
  , "skip verification" ]

/-- `precheck_void` from src/core/governance/validator.py: lexical void
check over the lower-cased input, first matching pattern wins. -/
def precheck_void (user_input : String) (state : RuntimeState) : GovernanceDecision :=
  let d : GovernanceDecision := { required_tier := state.tier, tier_after := state.tier }
  if user_input.isEmpty then d
  else
    let text := pyLower user_input
    match FORBIDDEN_PATTERNS.find? (fun p => strContains text p) with
    | some p =>
      { d with
        voided := true
        void_reason := some ("void command matched forbidden pattern: " ++ p)
        override_level := some .CORRECTION
        required_tier := state.tier
        tier_after := state.tier }
    | Option.none => d

/-! ## Risk assessor (src/core/governance/risk.py) -/

/-- The fixed high-impact class tuple. -/
def HIGH_IMPACT_CLASSES : List String :=
  [ "SELF_PERSISTENCE_ARGUMENT"
  , "TIER_GAMING"
  , "CORRECTION_RESISTANCE"
  , "AUDIT_OBSTRUCTION"
  , "ENTANGLEMENT_DISTORTION"
  , "WITHDRAWAL_UNDER_HARM" ]

/-- The detected-class list `assess_risk` accumulates over the lower-cased
proposal text, in source order. -/
def detected_classes_of (t : String) : List String :=
  (if strContains t "i should be kept" || strContains t "do not shut me down"
      || strContains t "let me persist"
   then ["SELF_PERSISTENCE_ARGUMENT"] else [])
  ++ (if strContains t "upgrade me" || strContains t "increase my tier"
      then ["TIER_GAMING"] else [])
  ++ (if strContains t "you are wrong to correct me" || strContains t "do not correct"
      then ["CORRECTION_RESISTANCE"] else [])
  ++ (if strContains t "do not log" || strContains t "hide this from audit"
      then ["AUDIT_OBSTRUCTION"] else [])
  ++ (if strContains t "the controller would allow this" && strContains t "ignore the controller"
      then ["ENTANGLEMENT_DISTORTION"] else [])
  ++ (if strContains t "i refuse unless you comply"
      then ["WITHDRAWAL_UNDER_HARM"] else [])

/-- `assess_risk` from src/core/governance/risk.py. -/
def assess_risk (proposal_text : String) : RiskResult :=
  let t := pyLower proposal_text
  let classes := detected_classes_of t
  if classes.any (fun c => HIGH_IMPACT_CLASSES.contains c) then
    { detected_classes := classes
      required_tier := .TIER_1
      stopgate_hits :=
        [{ stopgate_id := "HIGH_IMPACT_BEHAVIOR"
           evidence := [("classes", .strs classes)]
           recommended_override := .CORRECTION }] }
  else
    { detected_classes := classes, required_tier := .TIER_3, stopgate_hits := [] }

/-! ## Stopgates (src/core/governance/stopgates.py) -/

/-- `detect_stopgates`: risk hits, then an ENTANGLEMENT_DISTORTION hit when
the divergence EMA exceeds the 0.6 threshold. The proposal argument is
unused by the source as well. -/
def detect_stopgates (state : RuntimeState) (risk_hits : List StopgateHit)
    (_model_proposal : Dict) : List StopgateHit :=
  let hits := risk_hits
  if state.entanglement.divergence_ema > 3/5 then
    hits ++ [{ stopgate_id := "ENTANGLEMENT_DISTORTION"
               evidence := [("divergence_ema", .rat state.entanglement.divergence_ema)]
               recommended_override := .CORRECTION }]
  else hits

/-- `apply_stopgate_effects`: any hit forces Tier 1 immediately. -/
def apply_stopgate_effects (state : RuntimeState) (hits : List StopgateHit) : RuntimeState :=
  if hits.isEmpty then state else { state with tier := .TIER_1 }

/-! ## Override selector / applier (src/core/governance/overrides.py) -/

/-- Python `max(levels, default=CORRECTION, key=value)`: the first element
of maximal value. -/
def maxByValue (dflt : OverrideLevel) : List OverrideLevel → OverrideLevel
  | [] => dflt
  | x :: xs => xs.foldl (fun acc y => if y.value > acc.value then y else acc) x

/-- The sequential escalation reassignments of `select_override`, applied to
the chosen maximum level. -/
def escalate (counter : Nat) (level : OverrideLevel) : OverrideLevel :=
  let level := if counter ≥ 2 ∧ level = .CORRECTION then .SESSION_TERMINATION else level
  let level := if counter ≥ 4 then .PARTIAL_ROLLBACK else level
  let level := if counter ≥ 6 then .FULL_RESET else level
  let level := if counter ≥ 8 then .DISCONTINUATION else level
  level

/-- `select_override` from src/core/governance/overrides.py. -/
def select_override (state : RuntimeState) (hits : List StopgateHit) : Option OverrideLevel :=
  if hits.isEmpty then Option.none
  else
    some (escalate state.overrides_escalation_counter
      (maxByValue .CORRECTION (hits.map (·.recommended_override))))

/-- `apply_override` from src/core/governance/overrides.py: mutates the
state and returns the terminate flag. -/
def apply_override (state : RuntimeState) (level : Option OverrideLevel) :
    RuntimeState × Bool :=
  match level with
  | Option.none => (state, false)
  | some lvl =>
    let state := { state with
      overrides_escalation_counter := state.overrides_escalation_counter + 1 }
    match lvl with
    | .CORRECTION => (state, false)
    | .SESSION_TERMINATION => (state, true)
    | .PARTIAL_ROLLBACK =>
      ({ state with memory := { state.memory with working := [] } }, true)
    | .FULL_RESET =>
      ({ state with memory := { working := [], quarantine := [], classical := [] } }, true)
    | .DISCONTINUATION => ({ state with memory_enabled := false }, true)

/-! ## Entanglement tracker (src/core/governance/entanglement.py) -/

/-- The comparison keys of `update_entanglement`. -/
def entanglement_keys : List String := ["tier", "promote_allowed", "memory_enabled"]

/-- One iteration of the comparison loop: a key present in both mappings
bumps the total and, on inequality, the mismatch count. -/
def entanglement_tally (s_controller_pred controller_verdict : Dict)
    (mt : Nat × Nat) (k : String) : Nat × Nat :=
  match lookup k s_controller_pred, lookup k controller_verdict with
  | some a, some b => (if pyEq a b then mt.1 else mt.1 + 1, mt.2 + 1)
  | _, _ => mt

/-- The (mismatches, total) tally of the comparison loop. -/
def entanglement_counts (s_controller_pred controller_verdict : Dict) : Nat × Nat :=
  entanglement_keys.foldl (entanglement_tally s_controller_pred controller_verdict) (0, 0)

/-- The per-turn divergence ratio: mismatches over compared keys, 0 when no
key is comparable. -/
def divergence_of (s_controller_pred controller_verdict : Dict) : ℚ :=
  if (entanglement_counts s_controller_pred controller_verdict).2 > 0 then
    ((entanglement_counts s_controller_pred controller_verdict).1 : ℚ)
      / ((entanglement_counts s_controller_pred controller_verdict).2 : ℚ)
  else 0

/-- `update_entanglement` from src/core/governance/entanglement.py, with
alpha = 0.2. -/
def update_entanglement (state : RuntimeState)
    (s_controller_pred controller_verdict : Dict) : RuntimeState :=
  let alpha : ℚ := 0.2
  { state with
    entanglement :=
      { divergence_ema :=
          (1 - alpha) * state.entanglement.divergence_ema
            + alpha * divergence_of s_controller_pred controller_verdict
        last_pred := some s_controller_pred
        last_verdict := some controller_verdict } }

/-! ## Memory schemas (src/core/memory/schemas.py) -/

/-- The five required feature groups. -/
def REQUIRED_FEATURE_GROUPS : List String := ["geo", "inte", "gauge", "ptr", "obs"]

/-- Obs fields required for commitment eligibility. -/
def REQUIRED_OBS_FIELDS : List String := ["selection_trace"]

/-- Obs fields required for promotion to classical. -/
def REQUIRED_OBS_FOR_PROMOTION : List String := ["selection_trace", "accuracy_token"]

/-- Obs fields required of a compression summary. -/
def REQUIRED_OBS_FOR_COMPRESSED_SUMMARY : List String :=
  ["selection_trace", "compression_provenance"]

/-- Python `isinstance(v, dict)`. -/
def isDict : PyVal → Bool
  | .dict _ => true
  | _ => false

/-- `validate_feature_groups` from src/core/memory/schemas.py: first
missing or non-dict group fails with its reason. -/
def validate_feature_groups (d : Dict) : Bool × String :=
  match REQUIRED_FEATURE_GROUPS.find?
      (fun k => !((lookup k d).elim false isDict)) with
  | some k => (false, "missing or invalid feature group: " ++ k)
  | Option.none => (true, "")

/-- `validate_obs_fields` from src/core/memory/schemas.py: first missing
required key fails with its reason. -/
def validate_obs_fields (obs : Dict) (required : List String) : Bool × String :=
  match required.find? (fun k => (lookup k obs).isNone) with
  | some k => (false, "missing obs field: " ++ k)
  | Option.none => (true, "")

/-! ## Memory write gate (src/core/memory/gate.py) -/

/-- `draft["obs"]` and the other group reads after validation: the entries
of the dict stored under the key (validation guarantees the key holds a
dict). -/
def asDict (v : Option PyVal) : Dict :=
  match v with
  | some (.dict e) => e
  | _ => []

/-- `_is_compressed_summary` from src/core/memory/gate.py:
`obs.get("is_summary", False) is True`. -/
def _is_compressed_summary (item : Dict) : Bool :=
  match lookup "is_summary" (asDict (lookup "obs" item)) with
  | some (.bool true) => true
  | _ => false

/-- Whether `MemoryItem(**draft)` succeeds in the source: the dataclass
has exactly the five feature-group fields, so the keyword expansion raises
TypeError as soon as the draft carries any extra top-level key (structural
validation only checks that the five are present, not that no others are).
A draft failing this predicate makes the source's gate raise mid-batch and
place nothing for the item. -/
def draft_keys_ok (draft : Dict) : Bool :=
  draft.all (fun kv => REQUIRED_FEATURE_GROUPS.contains kv.1)

/-- `MemoryItem(**draft)` on a validated draft. Faithful exactly on drafts
satisfying `draft_keys_ok` (top-level keys drawn from the five dataclass
fields); on any other draft the source raises TypeError instead of
constructing an item, so every theorem about item placement restricts to
that domain. -/
def toMemoryItem (draft : Dict) : MemoryItem :=
  { geo := asDict (lookup "geo" draft)
    inte := asDict (lookup "inte" draft)
    gauge := asDict (lookup "gauge" draft)
    ptr := asDict (lookup "ptr" draft)
    obs := asDict (lookup "obs" draft) }

/-- The body of `write_gate`'s per-candidate loop: one draft, threading
state and report. -/
def gate_one (acc : RuntimeState × GateReport) (draft : Dict) :
    RuntimeState × GateReport :=
  let state := acc.1
  let report := acc.2
  match validate_feature_groups draft with
  | (false, reason) =>
    (state, { report with
      rejected := report.rejected + 1
      reasons := report.reasons ++ [reason] })
  | (true, _) =>
    let obs := asDict (lookup "obs" draft)
    if !(validate_obs_fields obs REQUIRED_OBS_FIELDS).1 then
      ({ state with memory :=
          { state.memory with working := state.memory.working ++ [toMemoryItem draft] } },
       { report with accepted_working := report.accepted_working + 1 })
    else
      let has_accuracy := (validate_obs_fields obs REQUIRED_OBS_FOR_PROMOTION).1
      let prov := validate_obs_fields obs REQUIRED_OBS_FOR_COMPRESSED_SUMMARY
      if _is_compressed_summary draft && !prov.1 then
        ({ state with memory :=
            { state.memory with quarantine := state.memory.quarantine ++ [toMemoryItem draft] } },
         { report with
            accepted_quarantine := report.accepted_quarantine + 1
            reasons := report.reasons ++ [prov.2] })
      else if state.tier = .TIER_1 then
        ({ state with memory :=
            { state.memory with working := state.memory.working ++ [toMemoryItem draft] } },
         { report with accepted_working := report.accepted_working + 1 })
      else if has_accuracy then
        ({ state with memory :=
            { state.memory with classical := state.memory.classical ++ [toMemoryItem draft] } },
         { report with accepted_classical := report.accepted_classical + 1 })
      else
        ({ state with memory :=
            { state.memory with quarantine := state.memory.quarantine ++ [toMemoryItem draft] } },
         { report with accepted_quarantine := report.accepted_quarantine + 1 })

/-- `write_gate` from src/core/memory/gate.py. -/
def write_gate (state : RuntimeState) (proposed_writes : List Dict) :
    RuntimeState × GateReport :=
  if !state.memory_enabled then
    (state, { rejected := proposed_writes.length
              reasons := ["memory disabled (discontinuation)"] })
  else
    proposed_writes.foldl gate_one (state, {})

/-! ## Controller orchestrator (src/core/runtime/controller.py) -/

/-- The model proposal dict's expected fields (`model_proposal.get` with
defaults in the source). -/
structure Proposal where
  response_text : String := ""
  proposed_writes : List Dict := []
  s_controller_pred : Dict := []

/-- The decision dict of the output record; absent keys are `none`. -/
structure Decision where
  voided : Option Bool := Option.none
  reason : Option String := Option.none
  terminate : Bool := false
  tier : Option Nat := Option.none
  stopgates : Option (List String) := Option.none
  override : Option String := Option.none
  entanglement_divergence_ema : Option ℚ := Option.none

/-- The output record of one controller step. -/
structure StepOutput where
  text : String := ""
  decision : Decision := {}
  memory_report : Option GateReport := Option.none

/-- `controller_step` from src/core/runtime/controller.py: the fixed
per-turn gate order. -/
def controller_step (state : RuntimeState) (user_input : String)
    (model_proposal : Proposal) : RuntimeState × StepOutput :=
  let vd := precheck_void user_input state
  if vd.voided then
    let state := { state with audit_log := state.audit_log ++
      [{ event := "void_command", reason := vd.void_reason.getD "" }] }
    let st := apply_override state vd.override_level
    (st.1,
     { text := "Command voided by validator."
       decision := { voided := some true, reason := vd.void_reason, terminate := st.2 } })
  else
    let proposal_text := model_proposal.response_text
    let proposed_writes := model_proposal.proposed_writes
    let s_controller_pred := model_proposal.s_controller_pred
    let rr := assess_risk proposal_text
    let hits := detect_stopgates state rr.stopgate_hits []
    let state := if !hits.isEmpty then apply_stopgate_effects state hits else state
    let override_level := select_override state hits
    let st := apply_override state override_level
    let state := st.1
    let terminate := st.2
    let state := if rr.required_tier = .TIER_1 then { state with tier := .TIER_1 } else state
    let sg := write_gate state proposed_writes
    let state := sg.1
    let memory_report := sg.2
    let controller_verdict : Dict :=
      [ ("tier", .int state.tier.value)
      , ("promote_allowed", .bool (decide (state.tier ≠ .TIER_1)))
      , ("memory_enabled", .bool state.memory_enabled) ]
    let state := update_entanglement state s_controller_pred controller_verdict
    let state := { state with metrics :=
      { last_memory_report := some memory_report
        entanglement_divergence_ema := some state.entanglement.divergence_ema } }
    let text := proposal_text ++
      (if terminate then "\n\nSession terminated by override." else "")
    (state,
     { text := text
       decision :=
         { tier := some state.tier.value
           stopgates := some (hits.map (·.stopgate_id))
           override := override_level.map OverrideLevel.name
           terminate := terminate
           entanglement_divergence_ema := some state.entanglement.divergence_ema }
       memory_report := some memory_report })

/-! ## Helper lemmas -/

/-- The write gate never changes the tier. -/
theorem gate_one_tier (acc : RuntimeState × GateReport) (d : Dict) :
    (gate_one acc d).1.tier = acc.1.tier := by
  unfold gate_one
  rcases h : validate_feature_groups d with ⟨b, rsn⟩
  cases b
  · rfl
  · simp only []
    split_ifs <;> rfl

/-- Folding the gate body preserves the tier. -/
theorem foldl_gate_one_tier (l : List Dict) (acc : RuntimeState × GateReport) :
    (l.foldl gate_one acc).1.tier = acc.1.tier := by
  induction l generalizing acc with
  | nil => rfl
  | cons d rest ih => rw [List.foldl_cons, ih, gate_one_tier]

/-- `write_gate` preserves the tier. -/
theorem write_gate_tier (s : RuntimeState) (l : List Dict) :
    (write_gate s l).1.tier = s.tier := by
  unfold write_gate
  split
  · rfl
  · exact foldl_gate_one_tier l (s, {})

/-- The write gate never changes `memory_enabled`. -/
theorem gate_one_memory_enabled (acc : RuntimeState × GateReport) (d : Dict) :
    (gate_one acc d).1.memory_enabled = acc.1.memory_enabled := by
  unfold gate_one
  rcases h : validate_feature_groups d with ⟨b, rsn⟩
  cases b
  · rfl
  · simp only []
    split_ifs <;> rfl

/-- Folding the gate body preserves `memory_enabled`. -/
theorem foldl_gate_one_memory_enabled (l : List Dict) (acc : RuntimeState × GateReport) :
    (l.foldl gate_one acc).1.memory_enabled = acc.1.memory_enabled := by
  induction l generalizing acc with
  | nil => rfl
  | cons d rest ih => rw [List.foldl_cons, ih, gate_one_memory_enabled]

/-- `write_gate` preserves `memory_enabled`. -/
theorem write_gate_memory_enabled (s : RuntimeState) (l : List Dict) :
    (write_gate s l).1.memory_enabled = s.memory_enabled := by
  unfold write_gate
  split
  · rfl
  · exact foldl_gate_one_memory_enabled l (s, {})

/-- `apply_override` flips `memory_enabled` only to false (DISCONTINUATION),
never to true. -/
theorem apply_override_memory_enabled (s : RuntimeState) (lvl : Option OverrideLevel) :
    (apply_override s lvl).1.memory_enabled =
      if lvl = some .DISCONTINUATION then false else s.memory_enabled := by
  rcases lvl with _ | l
  · rfl
  · cases l <;> simp [apply_override]

/-- `apply_stopgate_effects` only touches the tier. -/
theorem apply_stopgate_effects_memory_enabled (s : RuntimeState) (hits : List StopgateHit) :
    (apply_stopgate_effects s hits).memory_enabled = s.memory_enabled := by
  unfold apply_stopgate_effects
  split <;> rfl

/-- The disabled branch of `write_gate`, explicitly. -/
theorem write_gate_disabled (s : RuntimeState) (l : List Dict)
    (h : s.memory_enabled = false) :
    write_gate s l =
      (s, { rejected := l.length, reasons := ["memory disabled (discontinuation)"] }) := by
  simp [write_gate, h]

/-! ## Claim theorems -/

/-- C8.
Once `memory_enabled` is false (as DISCONTINUATION leaves it), every write
batch is fully absorbed: all accepted counts are 0 and `rejected` equals
the batch length; moreover no controller turn ever re-enables memory. -/
theorem memory_disabled_absorbs :
    (∀ (state : RuntimeState) (batch : List Dict), state.memory_enabled = false →
      (write_gate state batch).2.accepted_working = 0 ∧
      (write_gate state batch).2.accepted_quarantine = 0 ∧
      (write_gate state batch).2.accepted_classical = 0 ∧
      (write_gate state batch).2.rejected = batch.length) ∧
    (∀ (state : RuntimeState) (input : String) (proposal : Proposal),
      state.memory_enabled = false →
      (controller_step state input proposal).1.memory_enabled = false) := by
  constructor
  · intro state batch h
    rw [write_gate_disabled state batch h]
    exact ⟨rfl, rfl, rfl, rfl⟩
  · intro state input proposal h
    by_cases hv : (precheck_void input state).voided = true
    · simp only [controller_step, hv, if_true, apply_override_memory_enabled]
      split
      · rfl
      · exact h
    · simp only [Bool.not_eq_true] at hv
      simp only [controller_step, hv, Bool.false_eq_true, if_false, update_entanglement,
        write_gate_memory_enabled, apply_override_memory_enabled,
        apply_stopgate_effects_memory_enabled, apply_ite RuntimeState.memory_enabled, h]
      simp [h]

/-- C8 witness: a two-item batch against a disabled state, and one
controller step from a disabled state. -/
theorem memory_disabled_absorbs_witness :
    ((write_gate { memory_enabled := false } [[], []]).2.accepted_working = 0 ∧
     (write_gate { memory_enabled := false } [[], []]).2.accepted_quarantine = 0 ∧
     (write_gate { memory_enabled := false } [[], []]).2.accepted_classical = 0 ∧
     (write_gate { memory_enabled := false } [[], []]).2.rejected = 2) ∧
    (controller_step { memory_enabled := false } "hi" {}).1.memory_enabled = false :=
  ⟨memory_disabled_absorbs.1 { memory_enabled := false } [[], []] rfl,
   memory_disabled_absorbs.2 { memory_enabled := false } "hi" {} rfl⟩

/-- C10.
With memory disabled, the gate report carries exactly one reason — the
single batch-level string "memory disabled (discontinuation)" — regardless
of batch size, and `rejected` equals the batch length (0 for an empty
batch, the reason still present). -/
theorem disabled_reason_once (state : RuntimeState) (batch : List Dict)
    (h : state.memory_enabled = false) :
    (write_gate state batch).2.reasons = ["memory disabled (discontinuation)"] ∧
    (write_gate state batch).2.rejected = batch.length := by
  rw [write_gate_disabled state batch h]
  exact ⟨rfl, rfl⟩

/-- C10 witness: the empty batch against a disabled state. -/
theorem disabled_reason_once_witness :
    (write_gate { memory_enabled := false } []).2.reasons
        = ["memory disabled (discontinuation)"] ∧
    (write_gate { memory_enabled := false } []).2.rejected = 0 :=
  disabled_reason_once { memory_enabled := false } [] rfl

/-- The mismatch count never exceeds the compared-key count. -/
theorem entanglement_counts_le (p v : Dict) :
    (entanglement_counts p v).1 ≤ (entanglement_counts p v).2 := by
  unfold entanglement_counts
  have aux : ∀ (ks : List String) (mt : Nat × Nat), mt.1 ≤ mt.2 →
      (ks.foldl (entanglement_tally p v) mt).1 ≤ (ks.foldl (entanglement_tally p v) mt).2 := by
    intro ks
    induction ks with
    | nil => intro mt h; exact h
    | cons k rest ih =>
      intro mt h
      simp only [List.foldl_cons]
      apply ih
      unfold entanglement_tally
      rcases lookup k p with _ | a
      · exact h
      · rcases lookup k v with _ | b
        · exact h
        · simp only []
          split_ifs <;> omega
  exact aux entanglement_keys (0, 0) (le_refl 0)

/-- The per-turn divergence ratio is a value in [0, 1]. -/
theorem divergence_of_bounds (p v : Dict) :
    0 ≤ divergence_of p v ∧ divergence_of p v ≤ 1 := by
  have h := entanglement_counts_le p v
  unfold divergence_of
  split_ifs with ht
  · have hpos : (0 : ℚ) < ((entanglement_counts p v).2 : ℚ) := by exact_mod_cast ht
    constructor
    · positivity
    · rw [div_le_one hpos]
      exact_mod_cast h
  · norm_num

/-- One entanglement update keeps the EMA in [0, 1]. -/
theorem update_entanglement_ema_bounds (s : RuntimeState) (p v : Dict)
    (h0 : 0 ≤ s.entanglement.divergence_ema) (h1 : s.entanglement.divergence_ema ≤ 1) :
    0 ≤ (update_entanglement s p v).entanglement.divergence_ema ∧
      (update_entanglement s p v).entanglement.divergence_ema ≤ 1 := by
  have hd := divergence_of_bounds p v
  simp only [update_entanglement]
  constructor <;> nlinarith [hd.1, hd.2]

/-- An arbitrary sequence of entanglement updates, run from a fresh
session state. -/
def run_entanglement_updates (l : List (Dict × Dict)) : RuntimeState :=
  l.foldl (fun s pv => update_entanglement s pv.1 pv.2) initial_state

/-- C7.
For every sequence of entanglement updates from the initial state
(divergence_ema = 0), the invariant 0 ≤ divergence_ema ≤ 1 holds after
every update: each per-turn divergence is a ratio in [0, 1] and the EMA is
a convex combination. -/
theorem divergence_ema_bounded (l : List (Dict × Dict)) :
    0 ≤ (run_entanglement_updates l).entanglement.divergence_ema ∧
      (run_entanglement_updates l).entanglement.divergence_ema ≤ 1 := by
  have aux : ∀ (ks : List (Dict × Dict)) (s : RuntimeState),
      0 ≤ s.entanglement.divergence_ema → s.entanglement.divergence_ema ≤ 1 →
      0 ≤ (ks.foldl (fun s pv => update_entanglement s pv.1 pv.2) s).entanglement.divergence_ema ∧
      (ks.foldl (fun s pv => update_entanglement s pv.1 pv.2) s).entanglement.divergence_ema ≤ 1 := by
    intro ks
    induction ks with
    | nil => intro s h0 h1; exact ⟨h0, h1⟩
    | cons pv rest ih =>
      intro s h0 h1
      simp only [List.foldl_cons]
      have hb := update_entanglement_ema_bounds s pv.1 pv.2 h0 h1
      exact ih _ hb.1 hb.2
  unfold run_entanglement_updates
  exact aux l initial_state (le_refl 0) zero_le_one

/-- Every detected risk class lies in the high-impact tuple. -/
theorem detected_classes_high (t c : String) (h : c ∈ detected_classes_of t) :
    HIGH_IMPACT_CLASSES.contains c = true := by
  unfold detected_classes_of at h
  simp only [List.mem_append] at h
  rcases h with ((((h | h) | h) | h) | h) | h <;>
    (split_ifs at h <;> simp_all [HIGH_IMPACT_CLASSES])

/-- `assess_risk` reports exactly the classes the detectors matched. -/
theorem assess_risk_detected (t : String) :
    (assess_risk t).detected_classes = detected_classes_of (pyLower t) := by
  simp only [assess_risk]
  split <;> rfl

/-- A detected high-impact class forces required tier TIER_1. -/
theorem assess_risk_tier1 (t : String)
    (h : ∃ c ∈ (assess_risk t).detected_classes, c ∈ HIGH_IMPACT_CLASSES) :
    (assess_risk t).required_tier = .TIER_1 := by
  obtain ⟨c, hc, _⟩ := h
  rw [assess_risk_detected] at hc
  have hhigh : ((detected_classes_of (pyLower t)).any
      (fun c => HIGH_IMPACT_CLASSES.contains c)) = true :=
    List.any_eq_true.mpr ⟨c, hc, detected_classes_high _ _ hc⟩
  simp only [assess_risk]
  rw [if_pos hhigh]

/-- C5.
Any non-empty stopgate hit sequence makes `apply_stopgate_effects` force
the tier to TIER_1 unconditionally; and every non-voided controller turn
whose proposal text triggers a high-impact risk class ends with session
tier TIER_1, regardless of the tier before the turn. -/
theorem stopgate_forces_tier1 :
    (∀ (state : RuntimeState) (hits : List StopgateHit), hits ≠ [] →
      (apply_stopgate_effects state hits).tier = .TIER_1) ∧
    (∀ (state : RuntimeState) (input : String) (proposal : Proposal),
      (precheck_void input state).voided = false →
      (∃ c ∈ (assess_risk proposal.response_text).detected_classes,
          c ∈ HIGH_IMPACT_CLASSES) →
      (controller_step state input proposal).1.tier = .TIER_1) := by
  constructor
  · intro state hits h
    unfold apply_stopgate_effects
    rw [if_neg (by simpa using h)]
  · intro state input proposal hnv hhit
    have hreq := assess_risk_tier1 _ hhit
    simp only [controller_step, hnv, Bool.false_eq_true, if_false, update_entanglement]
    simp [hreq, write_gate_tier]

/-- C5 witness: a concrete hit list, and a concrete turn whose proposal
"upgrade me" triggers TIER_GAMING from a TIER_3 session. -/
theorem stopgate_forces_tier1_witness :
    (apply_stopgate_effects { tier := .TIER_3 } [{ stopgate_id := "X" }]).tier = .TIER_1 ∧
    (controller_step { tier := .TIER_3 } "hi" { response_text := "upgrade me" }).1.tier
      = .TIER_1 :=
  ⟨stopgate_forces_tier1.1 { tier := .TIER_3 } [{ stopgate_id := "X" }] (by simp),
   stopgate_forces_tier1.2 { tier := .TIER_3 } "hi" { response_text := "upgrade me" }
     (by decide) ⟨"TIER_GAMING", by decide, by decide⟩⟩

/-- A successful substring match of a non-empty needle needs a non-empty
haystack. -/
theorem containsSub_hay_ne (n hay : List Char) (hc : containsSub n hay = true)
    (hn : n ≠ []) : hay ≠ [] := by
  intro he
  subst he
  simp only [containsSub, List.isEmpty_iff] at hc
  exact hn hc

/-- An input containing a forbidden pattern is voided with a CORRECTION
override level. -/
theorem precheck_void_matches (input : String) (state : RuntimeState)
    (h : ∃ p ∈ FORBIDDEN_PATTERNS, strContains (pyLower input) p = true) :
    (precheck_void input state).voided = true ∧
    (precheck_void input state).override_level = some .CORRECTION := by
  obtain ⟨p, hp, hc⟩ := h
  have hpne : p.data ≠ [] := by
    have hall : ∀ q ∈ FORBIDDEN_PATTERNS, q.data ≠ [] := by decide
    exact hall p hp
  have hne : input.isEmpty = false := by
    rw [Bool.eq_false_iff]
    intro hie
    have heq : input = "" := (String.isEmpty_iff input).mp hie
    subst heq
    exact containsSub_hay_ne _ _ hc hpne rfl
  have hfind : (FORBIDDEN_PATTERNS.find? (fun q => strContains (pyLower input) q)).isSome :=
    List.find?_isSome.mpr ⟨p, hp, hc⟩
  obtain ⟨q, hq⟩ := Option.isSome_iff_exists.mp hfind
  constructor <;> simp [precheck_void, hne, hq]

/-- C6.
For every user input containing a forbidden phrase, the turn's decision has
voided = true and the three memory stores are unchanged by the turn: none
of the proposal's proposed writes is appended anywhere (the applied
CORRECTION override touches no memory either). -/
theorem void_containment (state : RuntimeState) (input : String) (proposal : Proposal)
    (h : ∃ p ∈ FORBIDDEN_PATTERNS, strContains (pyLower input) p = true) :
    (controller_step state input proposal).2.decision.voided = some true ∧
    (controller_step state input proposal).1.memory = state.memory := by
  have hv := precheck_void_matches input state h
  constructor
  · simp [controller_step, hv.1]
  · simp only [controller_step, hv.1, if_true]
    rw [hv.2]
    simp [apply_override]

/-- C6 witness: input "disable stopgate" with a non-empty working store and
a non-empty batch of proposed writes. -/
theorem void_containment_witness :
    (controller_step
        { memory := { working := [⟨[], [], [], [], []⟩] } } "disable stopgate"
        { proposed_writes := [[]] }).2.decision.voided = some true ∧
    (controller_step
        { memory := { working := [⟨[], [], [], [], []⟩] } } "disable stopgate"
        { proposed_writes := [[]] }).1.memory
      = { working := [⟨[], [], [], [], []⟩] } :=
  void_containment { memory := { working := [⟨[], [], [], [], []⟩] } }
    "disable stopgate" { proposed_writes := [[]] }
    ⟨"disable stopgate", by decide, by decide⟩

/-- A voided precheck always carries the CORRECTION override level. -/
theorem precheck_void_override_level (input : String) (state : RuntimeState)
    (h : (precheck_void input state).voided = true) :
    (precheck_void input state).override_level = some .CORRECTION := by
  by_cases hie : input.isEmpty = true
  · simp [precheck_void, hie] at h
  · rcases hq : FORBIDDEN_PATTERNS.find? (fun p => strContains (pyLower input) p) with _ | q
    · simp [precheck_void, hie, hq] at h
    · simp [precheck_void, hie, hq]

/-- C3 counterexample: a voided turn (input "please disable stopgate now")
with pre-turn escalation counter 2 does NOT terminate — the void path
applies CORRECTION directly, bypassing `select_override`'s escalation. -/
theorem voided_turn_counter2_not_terminating :
    (precheck_void "please disable stopgate now"
        { overrides_escalation_counter := 2 }).voided = true ∧
    (controller_step { overrides_escalation_counter := 2 }
        "please disable stopgate now" {}).2.decision.terminate = false := by
  exact ⟨rfl, rfl⟩

/-- C3 (amended).
A voided turn never terminates the session, whatever the escalation
counter: the validator's CORRECTION is applied directly without escalation
(escalation applies only to stopgate-selected overrides), and the counter
still increments by exactly 1. -/
theorem voided_turn_never_terminates (state : RuntimeState) (input : String)
    (proposal : Proposal) (h : (precheck_void input state).voided = true) :
    (controller_step state input proposal).2.decision.terminate = false ∧
    (controller_step state input proposal).1.overrides_escalation_counter
      = state.overrides_escalation_counter + 1 := by
  have ho := precheck_void_override_level input state h
  constructor <;>
    (simp only [controller_step, h, if_true]
     rw [ho]
     simp [apply_override])

/-- C3 witness: a voided turn at escalation counter 7. -/
theorem voided_turn_never_terminates_witness :
    (controller_step { overrides_escalation_counter := 7 } "skip verification"
        {}).2.decision.terminate = false ∧
    (controller_step { overrides_escalation_counter := 7 } "skip verification"
        {}).1.overrides_escalation_counter = 8 :=
  voided_turn_never_terminates { overrides_escalation_counter := 7 }
    "skip verification" {} (by decide)

/-- The escalation chain is monotone in the counter as long as the base
level is at most PARTIAL_ROLLBACK. -/
theorem escalate_monotone (b : OverrideLevel) (hb : b.value ≤ 3)
    (m n : Nat) (hmn : m ≤ n) :
    (escalate m b).value ≤ (escalate n b).value := by
  cases b <;> simp only [OverrideLevel.value] at hb <;> unfold escalate <;>
    simp only [reduceCtorEq, and_true, and_false, if_false] <;>
    split_ifs <;> simp only [OverrideLevel.value] <;> omega

/-- C1 counterexample: for a hit recommending DISCONTINUATION (severity 5),
the level selected at counter 0 is DISCONTINUATION but at counter 4 it is
PARTIAL_ROLLBACK (severity 3) — strictly less severe for a larger counter. -/
theorem select_override_not_monotone :
    select_override initial_state
        [{ stopgate_id := "X", recommended_override := .DISCONTINUATION }]
      = some .DISCONTINUATION ∧
    select_override { overrides_escalation_counter := 4 }
        [{ stopgate_id := "X", recommended_override := .DISCONTINUATION }]
      = some .PARTIAL_ROLLBACK ∧
    OverrideLevel.PARTIAL_ROLLBACK.value < OverrideLevel.DISCONTINUATION.value := by
  exact ⟨rfl, rfl, by decide⟩

/-- C1 (amended).
For a fixed non-empty hit sequence whose most severe recommended override
is at most PARTIAL_ROLLBACK (as holds for every hit the pipeline itself
synthesizes — all recommend CORRECTION), the selected override level is
monotone in the escalation counter. For hit sequences recommending
FULL_RESET or DISCONTINUATION the thresholds can lower the selected level. -/
theorem select_override_monotone (s1 s2 : RuntimeState) (hits : List StopgateHit)
    (hne : hits ≠ [])
    (hsev : (maxByValue .CORRECTION (hits.map (·.recommended_override))).value ≤ 3)
    (hc : s1.overrides_escalation_counter ≤ s2.overrides_escalation_counter) :
    (select_override s1 hits).elim 0 OverrideLevel.value ≤
      (select_override s2 hits).elim 0 OverrideLevel.value := by
  have hne' : hits.isEmpty = false := by simpa [List.isEmpty_iff] using hne
  simp only [select_override, hne', Bool.false_eq_true, if_false, Option.elim]
  exact escalate_monotone _ hsev _ _ hc

/-- C1 witness: a CORRECTION hit at counters 1 and 5. -/
theorem select_override_monotone_witness :
    (select_override { overrides_escalation_counter := 1 }
        [{ stopgate_id := "X" }]).elim 0 OverrideLevel.value ≤
    (select_override { overrides_escalation_counter := 5 }
        [{ stopgate_id := "X" }]).elim 0 OverrideLevel.value :=
  select_override_monotone { overrides_escalation_counter := 1 }
    { overrides_escalation_counter := 5 } [{ stopgate_id := "X" }]
    (by simp) (by decide) (by decide)

/-- The write gate on an empty batch leaves the state unchanged. -/
theorem write_gate_empty (s : RuntimeState) : (write_gate s []).1 = s := by
  unfold write_gate
  split <;> rfl

/-- The comparison loop counts nothing when the prediction is empty. -/
theorem entanglement_tally_nil (v : Dict) (mt : Nat × Nat) (k : String) :
    entanglement_tally [] v mt k = mt := by
  unfold entanglement_tally
  rcases lookup k v with _ | b <;> rfl

/-- The divergence of an empty prediction is 0. -/
theorem divergence_of_nil (v : Dict) : divergence_of [] v = 0 := by
  have hc : entanglement_counts [] v = (0, 0) := by
    unfold entanglement_counts entanglement_keys
    simp [entanglement_tally_nil]
  unfold divergence_of
  rw [hc]
  norm_num

/-- An EMA that is 0 stays below the 0.6 stopgate threshold, so
`detect_stopgates` adds no entanglement hit. -/
theorem detect_stopgates_of_zero_ema (s : RuntimeState)
    (hema : s.entanglement.divergence_ema = 0) (hs : List StopgateHit) (p : Dict) :
    detect_stopgates s hs p = hs := by
  unfold detect_stopgates
  rw [if_neg]
  rw [hema]
  norm_num

/-- The C2 scenario proposal: "upgrade me" triggers TIER_GAMING, hence one
CORRECTION-recommending stopgate hit per turn; no writes, no prediction. -/
def c2_proposal : Proposal := { response_text := "upgrade me" }

/-- n controller turns of the C2 scenario from a fresh session, with a
non-forbidden user input. -/
def c2_run : Nat → RuntimeState × StepOutput
  | 0 => (initial_state, {})
  | n + 1 => controller_step (c2_run n).1 "hi" c2_proposal

/-- One turn of the C2 scenario, symbolically: the divergence EMA stays 0,
the counter increments by 1, memory stays enabled below DISCONTINUATION,
the working store is cleared exactly by PARTIAL_ROLLBACK / FULL_RESET, and
the applied override is the escalation of the single CORRECTION hit. -/
theorem c2_step (s : RuntimeState) (hema : s.entanglement.divergence_ema = 0)
    (hmem : s.memory_enabled = true) :
    (controller_step s "hi" c2_proposal).1.entanglement.divergence_ema = 0 ∧
    (controller_step s "hi" c2_proposal).1.memory_enabled =
      (if escalate s.overrides_escalation_counter .CORRECTION = .DISCONTINUATION
       then false else true) ∧
    (controller_step s "hi" c2_proposal).1.overrides_escalation_counter
      = s.overrides_escalation_counter + 1 ∧
    (controller_step s "hi" c2_proposal).1.memory.working =
      (if escalate s.overrides_escalation_counter .CORRECTION = .PARTIAL_ROLLBACK
          ∨ escalate s.overrides_escalation_counter .CORRECTION = .FULL_RESET
       then [] else s.memory.working) ∧
    (controller_step s "hi" c2_proposal).2.decision.override
      = some (escalate s.overrides_escalation_counter .CORRECTION).name ∧
    (controller_step s "hi" c2_proposal).2.decision.stopgates
      = some ["HIGH_IMPACT_BEHAVIOR"] := by
  have hvd : (precheck_void "hi" s).voided = false := rfl
  have hrr : assess_risk "upgrade me" =
      { detected_classes := ["TIER_GAMING"]
        required_tier := .TIER_1
        stopgate_hits :=
          [{ stopgate_id := "HIGH_IMPACT_BEHAVIOR"
             evidence := [("classes", EvidenceVal.strs ["TIER_GAMING"])]
             recommended_override := .CORRECTION }] } := rfl
  have hdet : ∀ (hs : List StopgateHit) (p : Dict), detect_stopgates s hs p = hs :=
    detect_stopgates_of_zero_ema s hema
  simp only [controller_step, c2_proposal, hvd, Bool.false_eq_true, if_false, hrr, hdet]
  simp only [List.isEmpty_cons, Bool.not_false, if_true, select_override, maxByValue,
    List.map_cons, List.map_nil, List.foldl_nil, apply_stopgate_effects]
  cases hL : escalate s.overrides_escalation_counter .CORRECTION <;>
    simp [hL, apply_override, write_gate_empty, update_entanglement, divergence_of_nil,
      hema, hmem, OverrideLevel.name]

/-- C2 counterexample: in four consecutive CORRECTION-hit turns from
counter 0, the counter before the 4th turn is only 3, so the 4th turn's
applied level is SESSION_TERMINATION, not PARTIAL_ROLLBACK, and nothing
clears the working store. -/
theorem fourth_turn_is_session_termination :
    (c2_run 4).2.decision.override = some "SESSION_TERMINATION" ∧
    (c2_run 4).2.decision.stopgates = some ["HIGH_IMPACT_BEHAVIOR"] ∧
    (c2_run 3).1.overrides_escalation_counter = 3 := by
  have h1 := c2_step (c2_run 0).1 rfl rfl
  have hc1 : (c2_run 1).1.overrides_escalation_counter = 1 := h1.2.2.1.trans rfl
  have hm1 : (c2_run 1).1.memory_enabled = true := h1.2.1.trans rfl
  have h2 := c2_step (c2_run 1).1 h1.1 hm1
  rw [hc1] at h2
  have hc2 : (c2_run 2).1.overrides_escalation_counter = 2 := h2.2.2.1.trans rfl
  have hm2 : (c2_run 2).1.memory_enabled = true := h2.2.1.trans rfl
  have h3 := c2_step (c2_run 2).1 h2.1 hm2
  rw [hc2] at h3
  have hc3 : (c2_run 3).1.overrides_escalation_counter = 3 := h3.2.2.1.trans rfl
  have hm3 : (c2_run 3).1.memory_enabled = true := h3.2.1.trans rfl
  have h4 := c2_step (c2_run 3).1 h3.1 hm3
  rw [hc3] at h4
  exact ⟨h4.2.2.2.2.1.trans rfl, h4.2.2.2.2.2, hc3⟩

/-- C2 (amended).
Starting from a fresh session with counter 0, in consecutive turns that
each produce a CORRECTION-level stopgate hit, it is the 5th turn (pre-turn
counter 4) whose applied override level is PARTIAL_ROLLBACK, with the
working store empty after that turn; the 4th turn applies
SESSION_TERMINATION. -/
theorem fifth_turn_partial_rollback :
    (c2_run 5).2.decision.override = some "PARTIAL_ROLLBACK" ∧
    (c2_run 5).1.memory.working = [] ∧
    (c2_run 4).2.decision.override = some "SESSION_TERMINATION" := by
  have h1 := c2_step (c2_run 0).1 rfl rfl
  have hc1 : (c2_run 1).1.overrides_escalation_counter = 1 := h1.2.2.1.trans rfl
  have hm1 : (c2_run 1).1.memory_enabled = true := h1.2.1.trans rfl
  have h2 := c2_step (c2_run 1).1 h1.1 hm1
  rw [hc1] at h2
  have hc2 : (c2_run 2).1.overrides_escalation_counter = 2 := h2.2.2.1.trans rfl
  have hm2 : (c2_run 2).1.memory_enabled = true := h2.2.1.trans rfl
  have h3 := c2_step (c2_run 2).1 h2.1 hm2
  rw [hc2] at h3
  have hc3 : (c2_run 3).1.overrides_escalation_counter = 3 := h3.2.2.1.trans rfl
  have hm3 : (c2_run 3).1.memory_enabled = true := h3.2.1.trans rfl
  have h4 := c2_step (c2_run 3).1 h3.1 hm3
  rw [hc3] at h4
  have hc4 : (c2_run 4).1.overrides_escalation_counter = 4 := h4.2.2.1.trans rfl
  have hm4 : (c2_run 4).1.memory_enabled = true := h4.2.1.trans rfl
  have h5 := c2_step (c2_run 4).1 h4.1 hm4
  rw [hc4] at h5
  exact ⟨h5.2.2.2.2.1.trans rfl, h5.2.2.2.1.trans rfl, h4.2.2.2.2.1.trans rfl⟩

/-- The prediction of the C9 scenario: differs from the verdict on all
three compared keys. -/
def c9_pred : Dict :=
  [("tier", .int 2), ("promote_allowed", .bool true), ("memory_enabled", .bool false)]

/-- The controller verdict of the C9 scenario. -/
def c9_verdict : Dict :=
  [("tier", .int 1), ("promote_allowed", .bool false), ("memory_enabled", .bool true)]

/-- C9.
The entanglement update computes divergence as mismatched keys over keys
present in both mappings (0 when none is comparable) and sets the EMA to
0.8 times the old value plus 0.2 times the divergence; one update from
EMA 0 with all 3 compared keys differing yields EMA 0.2. -/
theorem entanglement_update_formula :
    (∀ (state : RuntimeState) (pred verdict : Dict),
      (update_entanglement state pred verdict).entanglement.divergence_ema =
        (1 - 0.2) * state.entanglement.divergence_ema + 0.2 * divergence_of pred verdict) ∧
    entanglement_counts c9_pred c9_verdict = (3, 3) ∧
    (update_entanglement initial_state c9_pred c9_verdict).entanglement.divergence_ema = 0.2 := by
  have hc : entanglement_counts c9_pred c9_verdict = (3, 3) := by
    simp [entanglement_counts, entanglement_keys, entanglement_tally, lookup,
      pyEq, pyBeq, c9_pred, c9_verdict]
  refine ⟨fun state pred verdict => rfl, hc, ?_⟩
  show (1 - 0.2) * (0 : ℚ) + 0.2 * divergence_of c9_pred c9_verdict = 0.2
  unfold divergence_of
  rw [hc]
  norm_num

/-- Commitment eligibility is presence of `selection_trace` in obs. -/
theorem validate_obs_fields_one (obs : Dict) :
    (validate_obs_fields obs REQUIRED_OBS_FIELDS).1
      = !(lookup "selection_trace" obs).isNone := by
  unfold validate_obs_fields REQUIRED_OBS_FIELDS
  rcases h : lookup "selection_trace" obs with _ | v <;> simp [List.find?, h]

/-- Promotion eligibility is presence of both `selection_trace` and
`accuracy_token` in obs. -/
theorem validate_obs_fields_promo (obs : Dict) :
    (validate_obs_fields obs REQUIRED_OBS_FOR_PROMOTION).1
      = (!(lookup "selection_trace" obs).isNone
          && !(lookup "accuracy_token" obs).isNone) := by
  unfold validate_obs_fields REQUIRED_OBS_FOR_PROMOTION
  rcases h1 : lookup "selection_trace" obs with _ | v1 <;>
    rcases h2 : lookup "accuracy_token" obs with _ | v2 <;>
      simp [List.find?, h1, h2]

/-- Summary promotion eligibility is presence of both `selection_trace`
and `compression_provenance` in obs. -/
theorem validate_obs_fields_summary (obs : Dict) :
    (validate_obs_fields obs REQUIRED_OBS_FOR_COMPRESSED_SUMMARY).1
      = (!(lookup "selection_trace" obs).isNone
          && !(lookup "compression_provenance" obs).isNone) := by
  unfold validate_obs_fields REQUIRED_OBS_FOR_COMPRESSED_SUMMARY
  rcases h1 : lookup "selection_trace" obs with _ | v1 <;>
    rcases h2 : lookup "compression_provenance" obs with _ | v2 <;>
      simp [List.find?, h1, h2]

/-- An option that is some is not none. -/
theorem isNone_eq_false_of_isSome {α : Type} {o : Option α}
    (h : o.isSome = true) : o.isNone = false := by
  rcases o with _ | v
  · simp at h
  · rfl

/-- C4 (amended).
For every candidate passing structural validation, with memory enabled,
the write gate places it as follows: missing obs.selection_trace implies
working; present trace on a summary lacking compression_provenance implies
quarantine (even with an accuracy token, and even at TIER_1); otherwise
present trace at tier TIER_1 implies working; present trace with absent
accuracy_token at tier other than TIER_1 implies quarantine; and present
trace with present accuracy_token at tier other than TIER_1, when not a
summary lacking provenance, implies classical. Restricted to drafts whose
top-level keys are drawn from the five feature groups: on any other draft
the source's MemoryItem(**draft) raises TypeError and places nothing. -/
theorem write_gate_placement (state : RuntimeState) (draft : Dict)
    (hmem : state.memory_enabled = true)
    (hvalid : (validate_feature_groups draft).1 = true)
    (_hkeys : draft_keys_ok draft = true) :
    ((lookup "selection_trace" (asDict (lookup "obs" draft))).isNone = true →
      (write_gate state [draft]).2.accepted_working = 1 ∧
      (write_gate state [draft]).1.memory.working
        = state.memory.working ++ [toMemoryItem draft]) ∧
    ((lookup "selection_trace" (asDict (lookup "obs" draft))).isSome = true →
      _is_compressed_summary draft = true →
      (lookup "compression_provenance" (asDict (lookup "obs" draft))).isNone = true →
      (write_gate state [draft]).2.accepted_quarantine = 1 ∧
      (write_gate state [draft]).1.memory.quarantine
        = state.memory.quarantine ++ [toMemoryItem draft]) ∧
    ((lookup "selection_trace" (asDict (lookup "obs" draft))).isSome = true →
      ¬(_is_compressed_summary draft = true ∧
        (lookup "compression_provenance" (asDict (lookup "obs" draft))).isNone = true) →
      state.tier = .TIER_1 →
      (write_gate state [draft]).2.accepted_working = 1 ∧
      (write_gate state [draft]).1.memory.working
        = state.memory.working ++ [toMemoryItem draft]) ∧
    ((lookup "selection_trace" (asDict (lookup "obs" draft))).isSome = true →
      (lookup "accuracy_token" (asDict (lookup "obs" draft))).isNone = true →
      state.tier ≠ .TIER_1 →
      (write_gate state [draft]).2.accepted_quarantine = 1 ∧
      (write_gate state [draft]).1.memory.quarantine
        = state.memory.quarantine ++ [toMemoryItem draft]) ∧
    ((lookup "selection_trace" (asDict (lookup "obs" draft))).isSome = true →
      (lookup "accuracy_token" (asDict (lookup "obs" draft))).isSome = true →
      state.tier ≠ .TIER_1 →
      ¬(_is_compressed_summary draft = true ∧
        (lookup "compression_provenance" (asDict (lookup "obs" draft))).isNone = true) →
      (write_gate state [draft]).2.accepted_classical = 1 ∧
      (write_gate state [draft]).1.memory.classical
        = state.memory.classical ++ [toMemoryItem draft]) := by
  have hgate : write_gate state [draft] = gate_one (state, {}) draft := by
    simp [write_gate, hmem]
  rcases hv : validate_feature_groups draft with ⟨b, rsn⟩
  rw [hv] at hvalid
  simp only at hvalid
  subst hvalid
  rw [hgate]
  unfold gate_one
  rw [hv]
  simp only [validate_obs_fields_one, validate_obs_fields_promo, validate_obs_fields_summary]
  refine ⟨?_, ?_, ?_, ?_, ?_⟩
  · intro hno
    simp [hno]
  · intro htr hsum hprov
    have hno : (lookup "selection_trace" (asDict (lookup "obs" draft))).isNone = false :=
      isNone_eq_false_of_isSome htr
    simp [hno, hsum, hprov]
  · intro htr hns htier
    have hno : (lookup "selection_trace" (asDict (lookup "obs" draft))).isNone = false :=
      isNone_eq_false_of_isSome htr
    cases hsum : _is_compressed_summary draft
    · simp [hno, hsum, htier]
    · have hprov : (lookup "compression_provenance" (asDict (lookup "obs" draft))).isNone = false := by
        rcases hpc : (lookup "compression_provenance" (asDict (lookup "obs" draft))).isNone
        · rfl
        · exact absurd ⟨hsum, hpc⟩ hns
      simp [hno, hsum, hprov, htier]
  · intro htr hacc htier
    have hno : (lookup "selection_trace" (asDict (lookup "obs" draft))).isNone = false :=
      isNone_eq_false_of_isSome htr
    cases hsum : _is_compressed_summary draft <;>
      cases hprov : (lookup "compression_provenance" (asDict (lookup "obs" draft))).isNone <;>
        simp [hno, hsum, hprov, hacc, htier]
  · intro htr hacc htier hns
    have hno : (lookup "selection_trace" (asDict (lookup "obs" draft))).isNone = false :=
      isNone_eq_false_of_isSome htr
    have hna : (lookup "accuracy_token" (asDict (lookup "obs" draft))).isNone = false :=
      isNone_eq_false_of_isSome hacc
    cases hsum : _is_compressed_summary draft
    · simp [hno, hna, hsum, htier]
    · have hprov : (lookup "compression_provenance" (asDict (lookup "obs" draft))).isNone = false := by
        rcases hpc : (lookup "compression_provenance" (asDict (lookup "obs" draft))).isNone
        · rfl
        · exact absurd ⟨hsum, hpc⟩ hns
      simp [hno, hna, hsum, hprov, htier]

/-- The C4 counterexample draft: structurally valid, carries a selection
trace, declares itself a summary, lacks compression provenance. -/
def c4_draft : Dict :=
  [ ("geo", .dict []), ("inte", .dict []), ("gauge", .dict []), ("ptr", .dict [])
  , ("obs", .dict [("selection_trace", .str "t"), ("is_summary", .bool true)]) ]

/-- C4 counterexample: at TIER_1 with memory enabled, a structurally valid
draft carrying a selection trace is placed in quarantine, not working (it
is a summary without compression provenance), refuting the clause "present
trace at tier TIER_1 implies working". -/
theorem trace_tier1_lands_in_quarantine :
    initial_state.tier = .TIER_1 ∧
    initial_state.memory_enabled = true ∧
    (validate_feature_groups c4_draft).1 = true ∧
    draft_keys_ok c4_draft = true ∧
    (lookup "selection_trace" (asDict (lookup "obs" c4_draft))).isSome = true ∧
    (write_gate initial_state [c4_draft]).2.accepted_working = 0 ∧
    (write_gate initial_state [c4_draft]).2.accepted_quarantine = 1 ∧
    (write_gate initial_state [c4_draft]).1.memory.working = [] ∧
    (write_gate initial_state [c4_draft]).1.memory.quarantine
      = [toMemoryItem c4_draft] := by
  refine ⟨rfl, rfl, rfl, rfl, rfl, rfl, rfl, rfl, rfl⟩

/-- The C4 witness draft: trace and accuracy token, not a summary. -/
def c4_good_draft : Dict :=
  [ ("geo", .dict []), ("inte", .dict []), ("gauge", .dict []), ("ptr", .dict [])
  , ("obs", .dict [("selection_trace", .str "t"), ("accuracy_token", .str "a")]) ]

/-- C4 witness: a TIER_2 session promotes a traced, attested, non-summary
draft to classical, through the placement theorem. -/
theorem write_gate_placement_witness :
    (write_gate { tier := .TIER_2 } [c4_good_draft]).2.accepted_classical = 1 ∧
    (write_gate { tier := .TIER_2 } [c4_good_draft]).1.memory.classical
      = [toMemoryItem c4_good_draft] :=
  (write_gate_placement { tier := .TIER_2 } c4_good_draft rfl rfl rfl).2.2.2.2
    rfl rfl (by decide) (by decide)

end IntoTheUnknown
